import Mathlib

/-
  Verification development for the grasbrook-cityscope/pyGraKPI repository
  (src/main.py).  The grid table, the local-to-geographic coordinate
  transform, the KPI aggregation loop and the GeoJSON feature construction
  are embedded shallowly below; the CRS reprojection capability (pyproj's
  Transformer) is treated as a black-box function parameter, as the spec
  prescribes.  JSON numbers appearing in the grid/header are embedded as
  integers (Int/Nat); JSON strings as String; a JSON null or an absent key
  on an optional value as Option.none.
-/

namespace PyGraKPI

/-- A mapping entry (one record of data["mapping"]["type"], main.py).
`type = none` models a record in which the "type" key is absent.
For the use-code fields, `none` models JSON null (falsy in Python). -/
structure TypeRecord where
  type : Option String
  bld_useGround : Option String
  bld_useUpper : Option String
  bld_numLevels : Int
  os_type : Option String
deriving DecidableEq, Repr

/-- A non-null grid cell: the ordered attribute tuple; only the entry at
`typeidx` (a non-negative type-index) is ever read by the code. -/
abbrev Cell := List Nat

/-- The Table class of main.py (fields set by Table.fromCityIO):
cellSize/ncols/nrows/mapping/typeidx/tablerotation/origin.
`origin` is the result of the input-CRS -> compute-CRS reprojection and
lives in the real plane; `tablerotation` is the bearing in degrees. -/
structure Table where
  cellSize : Int
  ncols : Nat
  nrows : Nat
  mapping : List TypeRecord
  typeidx : Nat
  tablerotation : Real
  origin : Real × Real

/-- math.radians: degrees to radians. -/
noncomputable def radians (d : Real) : Real := d * Real.pi / 180

/-- Table.Local2Geo (main.py lines 449-460): scale by cellSize with the
y axis flipped, rotate by the table bearing, translate by the origin. -/
noncomputable def Local2Geo (t : Table) (x y : Real) : Real × Real :=
  let bearing := t.tablerotation
  let x := x * (t.cellSize : Real)
  let y := y * (-(t.cellSize : Real))
  let new_x := x * Real.cos (radians bearing) - y * Real.sin (radians bearing)
  let new_y := x * Real.sin (radians bearing) + y * Real.cos (radians bearing)
  (new_x + t.origin.1, new_y + t.origin.2)

/-- The algorithm stated by the spec for localToGeo: scale (with y flip),
rotate counter-clockwise by the rotation in degrees, translate by origin. -/
noncomputable def local2GeoSpec (cs : Int) (rotation : Real) (o : Real × Real)
    (x y : Real) : Real × Real :=
  let θ := radians rotation
  let xs := x * (cs : Real)
  let ys := -(y * (cs : Real))
  (xs * Real.cos θ - ys * Real.sin θ + o.1,
   xs * Real.sin θ + ys * Real.cos θ + o.2)

/-- Euclidean distance between two points of the plane. -/
noncomputable def dist2 (p q : Real × Real) : Real :=
  Real.sqrt ((p.1 - q.1) ^ 2 + (p.2 - q.2) ^ 2)

/-- Claim C3: Local2Geo is a pure function of (x, y, cellSize, rotation,
origin) computing scale (y flipped), counter-clockwise rotation by the
bearing in degrees, then translation by the origin; with rotation = 0 it
returns exactly (x*cellSize + origin.1, -y*cellSize + origin.2). -/
theorem local2Geo_formula (t : Table) (x y : Real) :
    Local2Geo t x y
      = local2GeoSpec t.cellSize t.tablerotation t.origin x y
    ∧ (t.tablerotation = 0 →
        Local2Geo t x y
          = (x * (t.cellSize : Real) + t.origin.1,
             -y * (t.cellSize : Real) + t.origin.2)) := by
  constructor
  · simp only [Local2Geo, local2GeoSpec]
    refine Prod.ext ?_ ?_ <;> (dsimp only; try ring)
  · intro h
    simp only [Local2Geo, h, radians, Real.cos_zero, Real.sin_zero,
      zero_mul, zero_div, mul_zero, mul_one, sub_zero, zero_add, add_zero]
    refine Prod.ext ?_ ?_ <;> (dsimp only; try ring)

/-- Witness for C3: a concrete table with rotation 0. -/
def T0 : Table :=
  { cellSize := 10, ncols := 2, nrows := 1, mapping := [], typeidx := 0,
    tablerotation := 0, origin := (0, 0) }

theorem local2Geo_formula_witness :
    Local2Geo T0 1 2
      = ((1 : Real) * ((T0.cellSize : Int) : Real) + T0.origin.1,
         -(2 : Real) * ((T0.cellSize : Int) : Real) + T0.origin.2) :=
  (local2Geo_formula T0 1 2).2 rfl

/-- Claim C4: Local2Geo is a similarity with ratio cellSize: for every pair
of points and every rotation, the Euclidean distance of the images equals
cellSize * sqrt((x1-x2)^2 + (y1-y2)^2), provided cellSize is non-negative
(the data model requires a positive cellSize). -/
theorem local2Geo_distance_preserving (t : Table) (h : 0 ≤ t.cellSize)
    (x1 y1 x2 y2 : Real) :
    dist2 (Local2Geo t x1 y1) (Local2Geo t x2 y2)
      = (t.cellSize : Real) * Real.sqrt ((x1 - x2) ^ 2 + (y1 - y2) ^ 2) := by
  have hsc := Real.sin_sq_add_cos_sq (radians t.tablerotation)
  have hcs : (0 : Real) ≤ (t.cellSize : Real) := by exact_mod_cast h
  unfold dist2 Local2Geo
  have key :
      (x1 * (t.cellSize : Real) * Real.cos (radians t.tablerotation) -
            y1 * (-(t.cellSize : Real)) * Real.sin (radians t.tablerotation) +
            t.origin.1 -
          (x2 * (t.cellSize : Real) * Real.cos (radians t.tablerotation) -
            y2 * (-(t.cellSize : Real)) * Real.sin (radians t.tablerotation) +
            t.origin.1)) ^ 2 +
        (x1 * (t.cellSize : Real) * Real.sin (radians t.tablerotation) +
            y1 * (-(t.cellSize : Real)) * Real.cos (radians t.tablerotation) +
            t.origin.2 -
          (x2 * (t.cellSize : Real) * Real.sin (radians t.tablerotation) +
            y2 * (-(t.cellSize : Real)) * Real.cos (radians t.tablerotation) +
            t.origin.2)) ^ 2
      = (t.cellSize : Real) ^ 2 * ((x1 - x2) ^ 2 + (y1 - y2) ^ 2) := by
    linear_combination
      ((t.cellSize : Real) ^ 2 * ((x1 - x2) ^ 2 + (y1 - y2) ^ 2)) * hsc
  dsimp only
  rw [key, Real.sqrt_mul (by positivity), Real.sqrt_sq hcs]

theorem local2Geo_distance_preserving_witness :
    (0 : Int) ≤ T0.cellSize
    ∧ dist2 (Local2Geo T0 0 0) (Local2Geo T0 3 4)
        = ((T0.cellSize : Int) : Real)
            * Real.sqrt (((0 : Real) - 3) ^ 2 + ((0 : Real) - 4) ^ 2) :=
  ⟨by decide, local2Geo_distance_preserving T0 (by decide) 0 0 3 4⟩

/-- The typedefs.json catalog: one set of use-code strings per category
(buildinguses.living/commerce/special, openspacetypes.green/sports/playgrounds). -/
structure TypeDefs where
  living : List String
  commerce : List String
  special : List String
  green : List String
  sports : List String
  playgrounds : List String
deriving DecidableEq, Repr

/-- The six KPI accumulators of run (main.py lines 535-540). -/
structure Totals where
  bld_living : Int
  bld_commerce : Int
  bld_special : Int
  os_green : Int
  os_sports : Int
  os_play : Int
deriving DecidableEq, Repr

/-- All six accumulators start at 0. -/
def totals0 : Totals :=
  { bld_living := 0, bld_commerce := 0, bld_special := 0,
    os_green := 0, os_sports := 0, os_play := 0 }

/-- The properties record attached to a building cell's feature
(main.py lines 552-556). -/
structure BldProps where
  bld_useGround : Option String
  bld_useUpper : Option String
  bld_numLevels : Int
deriving DecidableEq, Repr

/-- One feature of the parsed FeatureCollection (json.loads of the string
built by makeGeoJSON): its id is the linear grid index (serialized as the
decimal string of that index) and its properties record, where `none`
models the empty JSON object left by PolyToGeoJSON. -/
structure Feature where
  id : Nat
  properties : Option BldProps
deriving DecidableEq, Repr

/-- The mutable state of one run cycle: the grid array, the parsed geojson
feature list and the six accumulators. -/
structure RunState where
  gridData : List (Option Cell)
  features : List Feature
  totals : Totals
deriving DecidableEq, Repr

/-- The unhandled Python exceptions the aggregation loop can raise:
cell[typeidx] out of range, or mapping[...] with no entry for the
type-index (both IndexError in the source, neither caught). -/
inductive AggError where
  | cellAttrMissing
  | mappingEntryMissing
deriving DecidableEq, Repr

/-- Python truthiness of a use-code value: None and the empty string are
falsy, every other string truthy. -/
def truthy : Option String → Bool
  | none => false
  | some s => s != ""

/-- Python membership test `value in catalogList` (None is in no list of
strings). -/
def inSet (v : Option String) (l : List String) : Bool :=
  match v with
  | none => false
  | some s => l.contains s

/-- geojson['features'][cell_id]['properties'] = {...} (main.py 552-556):
replace the properties of the feature at the given index, keeping its id.
(In the run pipeline the index is always in range.) -/
def setProps (features : List Feature) (i : Nat) (p : BldProps) : List Feature :=
  match features[i]? with
  | some f => features.set i { f with properties := some p }
  | none => features

/-- The "ground floor uses" block (main.py lines 558-565): three
independent sequential ifs over the living/commerce/special sets. -/
def groundUses (typejs : TypeDefs) (cs : Int) (curuse1 : Option String)
    (curlevels : Int) (t0 : Totals) : Totals :=
  if truthy curuse1 ∧ 0 < curlevels then
    let a := if inSet curuse1 typejs.living then
        { t0 with bld_living := t0.bld_living + cs * cs } else t0
    let b := if inSet curuse1 typejs.commerce then
        { a with bld_commerce := a.bld_commerce + cs * cs } else a
    if inSet curuse1 typejs.special then
        { b with bld_special := b.bld_special + cs * cs } else b
  else t0

/-- The "upper floor uses" block (main.py lines 566-573): three
independent sequential ifs, each adding cellSize^2 * (numLevels - 1). -/
def upperUses (typejs : TypeDefs) (cs : Int) (curusen : Option String)
    (curlevels : Int) (t1 : Totals) : Totals :=
  if truthy curusen ∧ 1 < curlevels then
    let a := if inSet curusen typejs.living then
        { t1 with bld_living := t1.bld_living + cs * cs * (curlevels - 1) } else t1
    let b := if inSet curusen typejs.commerce then
        { a with bld_commerce := a.bld_commerce + cs * cs * (curlevels - 1) } else a
    if inSet curusen typejs.special then
        { b with bld_special := b.bld_special + cs * cs * (curlevels - 1) } else b
  else t1

/-- The open_space branch (main.py lines 575-582): three independent
sequential ifs over the green/sports/playgrounds sets. -/
def openSpaceUses (typejs : TypeDefs) (cs : Int) (curuse : Option String)
    (t0 : Totals) : Totals :=
  let a := if inSet curuse typejs.green then
      { t0 with os_green := t0.os_green + cs * cs } else t0
  let b := if inSet curuse typejs.sports then
      { a with os_sports := a.os_sports + cs * cs } else a
  if inSet curuse typejs.playgrounds then
      { b with os_play := b.os_play + cs * cs } else b

/-- One iteration of the aggregation loop of run (main.py lines 542-582)
at linear index cell_id.  A null cell or a mapping entry without a "type"
key is skipped (continue); a missing cell attribute or a type-index with
no mapping entry raises (IndexError, uncaught in the source). -/
def stepCell (typejs : TypeDefs) (gridDef : Table) (st : RunState)
    (cell_id : Nat) : Except AggError RunState :=
  match st.gridData[cell_id]? with
  | none => Except.ok st
  | some none => Except.ok st
  | some (some cell) =>
    match cell[gridDef.typeidx]? with
    | none => Except.error AggError.cellAttrMissing
    | some tidx =>
      match gridDef.mapping[tidx]? with
      | none => Except.error AggError.mappingEntryMissing
      | some entry =>
        match entry.type with
        | none => Except.ok st
        | some curtype =>
          if curtype = "building" then
            let features := setProps st.features cell_id
              { bld_useGround := entry.bld_useGround,
                bld_useUpper := entry.bld_useUpper,
                bld_numLevels := entry.bld_numLevels }
            let t1 := groundUses typejs gridDef.cellSize entry.bld_useGround
              entry.bld_numLevels st.totals
            let t2 := upperUses typejs gridDef.cellSize entry.bld_useUpper
              entry.bld_numLevels t1
            Except.ok { st with features := features, totals := t2 }
          else if curtype = "open_space" then
            let t1 := openSpaceUses typejs gridDef.cellSize entry.os_type st.totals
            Except.ok { st with totals := t1 }
          else Except.ok st

/-- The loop `for cell_id, cell in enumerate(gridData)` unrolled from a
start index for a given number of iterations. -/
def runLoopFrom (typejs : TypeDefs) (gridDef : Table) :
    Nat → Nat → RunState → Except AggError RunState
  | _, 0, st => Except.ok st
  | i, n + 1, st =>
    match stepCell typejs gridDef st i with
    | Except.error e => Except.error e
    | Except.ok st1 => runLoopFrom typejs gridDef (i + 1) n st1

/-- The full aggregation pass of run over the grid array. -/
def runLoop (typejs : TypeDefs) (gridDef : Table) (st : RunState) :
    Except AggError RunState :=
  runLoopFrom typejs gridDef 0 st.gridData.length st

/-- The parsed feature list produced by makeGeoJSON before aggregation:
one feature per linear grid index, id equal to the index, properties the
empty object (appendPolyFeatures passes properties = {} for every cell). -/
def makeFeatureList (n : Nat) : List Feature :=
  (List.range n).map (fun i => { id := i, properties := none })

/-- remove_empty_cells_from_geojson (main.py lines 516-517): keep exactly
the features whose properties record is not the empty object. -/
def remove_empty_cells_from_geojson (features : List Feature) : List Feature :=
  features.filter (fun f => !(f.properties == none))

/-- Spec-side formula: the ground-floor area a building cell adds to one
category total. -/
def groundDelta (cs : Int) (g : Option String) (levels : Int)
    (cat : List String) : Int :=
  if truthy g ∧ 0 < levels ∧ inSet g cat then cs * cs else 0

/-- Spec-side formula: the upper-floor area a building cell adds to one
category total. -/
def upperDelta (cs : Int) (u : Option String) (levels : Int)
    (cat : List String) : Int :=
  if truthy u ∧ 1 < levels ∧ inSet u cat then cs * cs * (levels - 1) else 0

/-- Spec-side formula: the area an open_space cell adds to one category
total. -/
def osDelta (cs : Int) (v : Option String) (cat : List String) : Int :=
  if inSet v cat then cs * cs else 0

/-- The building attributes the aggregation attaches to a feature: present
exactly when the cell is non-null, resolves in the mapping, and its entry
has type "building". -/
def buildingAttrs (gridDef : Table) (cell : Option Cell) : Option BldProps :=
  match cell with
  | none => none
  | some c =>
    match c.get? gridDef.typeidx with
    | none => none
    | some tidx =>
      match gridDef.mapping[tidx]? with
      | none => none
      | some entry =>
        if entry.type = some "building" then
          some { bld_useGround := entry.bld_useGround,
                 bld_useUpper := entry.bld_useUpper,
                 bld_numLevels := entry.bld_numLevels }
        else none

lemma groundUses_totals (typejs : TypeDefs) (cs : Int) (g : Option String)
    (lv : Int) (t : Totals) :
    (groundUses typejs cs g lv t).bld_living
        = t.bld_living + groundDelta cs g lv typejs.living
    ∧ (groundUses typejs cs g lv t).bld_commerce
        = t.bld_commerce + groundDelta cs g lv typejs.commerce
    ∧ (groundUses typejs cs g lv t).bld_special
        = t.bld_special + groundDelta cs g lv typejs.special
    ∧ (groundUses typejs cs g lv t).os_green = t.os_green
    ∧ (groundUses typejs cs g lv t).os_sports = t.os_sports
    ∧ (groundUses typejs cs g lv t).os_play = t.os_play := by
  unfold groundUses groundDelta
  split_ifs <;> simp_all

lemma upperUses_totals (typejs : TypeDefs) (cs : Int) (u : Option String)
    (lv : Int) (t : Totals) :
    (upperUses typejs cs u lv t).bld_living
        = t.bld_living + upperDelta cs u lv typejs.living
    ∧ (upperUses typejs cs u lv t).bld_commerce
        = t.bld_commerce + upperDelta cs u lv typejs.commerce
    ∧ (upperUses typejs cs u lv t).bld_special
        = t.bld_special + upperDelta cs u lv typejs.special
    ∧ (upperUses typejs cs u lv t).os_green = t.os_green
    ∧ (upperUses typejs cs u lv t).os_sports = t.os_sports
    ∧ (upperUses typejs cs u lv t).os_play = t.os_play := by
  unfold upperUses upperDelta
  split_ifs <;> simp_all

lemma openSpaceUses_totals (typejs : TypeDefs) (cs : Int) (v : Option String)
    (t : Totals) :
    (openSpaceUses typejs cs v t).os_green
        = t.os_green + osDelta cs v typejs.green
    ∧ (openSpaceUses typejs cs v t).os_sports
        = t.os_sports + osDelta cs v typejs.sports
    ∧ (openSpaceUses typejs cs v t).os_play
        = t.os_play + osDelta cs v typejs.playgrounds
    ∧ (openSpaceUses typejs cs v t).bld_living = t.bld_living
    ∧ (openSpaceUses typejs cs v t).bld_commerce = t.bld_commerce
    ∧ (openSpaceUses typejs cs v t).bld_special = t.bld_special := by
  unfold openSpaceUses osDelta
  split_ifs <;> simp_all

/-- Unfolds stepCell on a building cell: properties attached, totals run
through the ground-floor and upper-floor blocks. -/
lemma stepCell_building (typejs : TypeDefs) (gd : Table) (st : RunState)
    (i : Nat) (cell : Cell) (tidx : Nat) (entry : TypeRecord)
    (hc : st.gridData[i]? = some (some cell))
    (hti : cell[gd.typeidx]? = some tidx)
    (htm : gd.mapping[tidx]? = some entry)
    (hb : entry.type = some "building") :
    stepCell typejs gd st i = Except.ok { st with
      features := setProps st.features i
        { bld_useGround := entry.bld_useGround,
          bld_useUpper := entry.bld_useUpper,
          bld_numLevels := entry.bld_numLevels },
      totals := upperUses typejs gd.cellSize entry.bld_useUpper
        entry.bld_numLevels
        (groundUses typejs gd.cellSize entry.bld_useGround
          entry.bld_numLevels st.totals) } := by
  simp [stepCell, hc, hti, htm, hb]

/-- Unfolds stepCell on an open_space cell. -/
lemma stepCell_openspace (typejs : TypeDefs) (gd : Table) (st : RunState)
    (i : Nat) (cell : Cell) (tidx : Nat) (entry : TypeRecord)
    (hc : st.gridData[i]? = some (some cell))
    (hti : cell[gd.typeidx]? = some tidx)
    (htm : gd.mapping[tidx]? = some entry)
    (hs : entry.type = some "open_space") :
    stepCell typejs gd st i = Except.ok { st with
      totals := openSpaceUses typejs gd.cellSize entry.os_type st.totals } := by
  simp [stepCell, hc, hti, htm, hs]

/-- Claim C1: a building cell (non-null, resolved, type "building") adds to
each of the living/commerce/special totals exactly the ground-floor area
cellSize^2 (iff bld_useGround is truthy, bld_numLevels > 0 and the
category set contains bld_useGround) plus the upper-floor area
cellSize^2 * (bld_numLevels - 1) (iff bld_useUpper is truthy,
bld_numLevels > 1 and the set contains bld_useUpper); the open-space
totals are untouched, and with bld_numLevels = 0 the totals are unchanged
altogether. -/
theorem building_cell_contribution (typejs : TypeDefs) (gd : Table)
    (st : RunState) (i : Nat) (cell : Cell) (tidx : Nat) (entry : TypeRecord)
    (hc : st.gridData[i]? = some (some cell))
    (hti : cell[gd.typeidx]? = some tidx)
    (htm : gd.mapping[tidx]? = some entry)
    (hb : entry.type = some "building") :
    (stepCell typejs gd st i).map (fun s => s.totals.bld_living)
        = Except.ok (st.totals.bld_living
            + groundDelta gd.cellSize entry.bld_useGround entry.bld_numLevels
                typejs.living
            + upperDelta gd.cellSize entry.bld_useUpper entry.bld_numLevels
                typejs.living)
    ∧ (stepCell typejs gd st i).map (fun s => s.totals.bld_commerce)
        = Except.ok (st.totals.bld_commerce
            + groundDelta gd.cellSize entry.bld_useGround entry.bld_numLevels
                typejs.commerce
            + upperDelta gd.cellSize entry.bld_useUpper entry.bld_numLevels
                typejs.commerce)
    ∧ (stepCell typejs gd st i).map (fun s => s.totals.bld_special)
        = Except.ok (st.totals.bld_special
            + groundDelta gd.cellSize entry.bld_useGround entry.bld_numLevels
                typejs.special
            + upperDelta gd.cellSize entry.bld_useUpper entry.bld_numLevels
                typejs.special)
    ∧ (stepCell typejs gd st i).map (fun s => s.totals.os_green)
        = Except.ok st.totals.os_green
    ∧ (stepCell typejs gd st i).map (fun s => s.totals.os_sports)
        = Except.ok st.totals.os_sports
    ∧ (stepCell typejs gd st i).map (fun s => s.totals.os_play)
        = Except.ok st.totals.os_play
    ∧ (entry.bld_numLevels = 0 →
        (stepCell typejs gd st i).map (fun s => s.totals)
          = Except.ok st.totals) := by
  have hstep := stepCell_building typejs gd st i cell tidx entry hc hti htm hb
  obtain ⟨g1, g2, g3, g4, g5, g6⟩ :=
    groundUses_totals typejs gd.cellSize entry.bld_useGround
      entry.bld_numLevels st.totals
  obtain ⟨u1, u2, u3, u4, u5, u6⟩ :=
    upperUses_totals typejs gd.cellSize entry.bld_useUpper
      entry.bld_numLevels
      (groundUses typejs gd.cellSize entry.bld_useGround
        entry.bld_numLevels st.totals)
  refine ⟨?_, ?_, ?_, ?_, ?_, ?_, ?_⟩
  · simp [hstep, Except.map, u1, g1, add_assoc]
  · simp [hstep, Except.map, u2, g2, add_assoc]
  · simp [hstep, Except.map, u3, g3, add_assoc]
  · simp [hstep, Except.map, u4, g4]
  · simp [hstep, Except.map, u5, g5]
  · simp [hstep, Except.map, u6, g6]
  · intro h0
    simp [hstep, Except.map, groundUses, upperUses, h0]

def entryW : TypeRecord :=
  { type := some "building", bld_useGround := some "res",
    bld_useUpper := some "com", bld_numLevels := 3, os_type := none }

def entryOS : TypeRecord :=
  { type := some "open_space", bld_useGround := none,
    bld_useUpper := none, bld_numLevels := 0, os_type := some "park" }

def TDw : TypeDefs :=
  { living := ["res"], commerce := ["com"], special := [],
    green := ["park"], sports := [], playgrounds := [] }

def GDw : Table :=
  { cellSize := 10, ncols := 2, nrows := 1, mapping := [entryW, entryOS],
    typeidx := 0, tablerotation := 0, origin := (0, 0) }

def STw : RunState :=
  { gridData := [some [0], none], features := makeFeatureList 2,
    totals := totals0 }

theorem building_cell_contribution_witness :
    (stepCell TDw GDw STw 0).map (fun s => s.totals.bld_living)
      = Except.ok (STw.totals.bld_living
          + groundDelta GDw.cellSize entryW.bld_useGround entryW.bld_numLevels
              TDw.living
          + upperDelta GDw.cellSize entryW.bld_useUpper entryW.bld_numLevels
              TDw.living) :=
  (building_cell_contribution TDw GDw STw 0 [0] 0 entryW rfl rfl rfl rfl).1

/-- Claim C2: category matching is non-exclusive: each category set is
tested independently (sequential ifs), so for a building cell each of the
living/commerce/special totals gets its own membership-gated increment,
and for an open_space cell each of green/sports/playgrounds gets
cellSize^2 exactly when its set contains os_type, while the building
totals stay unchanged. -/
theorem category_matching_nonexclusive (typejs : TypeDefs) (gd : Table)
    (st : RunState) (i : Nat) (cell : Cell) (tidx : Nat) (entry : TypeRecord)
    (hc : st.gridData[i]? = some (some cell))
    (hti : cell[gd.typeidx]? = some tidx)
    (htm : gd.mapping[tidx]? = some entry) :
    (entry.type = some "building" →
      (stepCell typejs gd st i).map (fun s => s.totals.bld_living)
          = Except.ok (st.totals.bld_living
              + groundDelta gd.cellSize entry.bld_useGround
                  entry.bld_numLevels typejs.living
              + upperDelta gd.cellSize entry.bld_useUpper
                  entry.bld_numLevels typejs.living)
        ∧ (stepCell typejs gd st i).map (fun s => s.totals.bld_commerce)
          = Except.ok (st.totals.bld_commerce
              + groundDelta gd.cellSize entry.bld_useGround
                  entry.bld_numLevels typejs.commerce
              + upperDelta gd.cellSize entry.bld_useUpper
                  entry.bld_numLevels typejs.commerce)
        ∧ (stepCell typejs gd st i).map (fun s => s.totals.bld_special)
          = Except.ok (st.totals.bld_special
              + groundDelta gd.cellSize entry.bld_useGround
                  entry.bld_numLevels typejs.special
              + upperDelta gd.cellSize entry.bld_useUpper
                  entry.bld_numLevels typejs.special))
    ∧ (entry.type = some "open_space" →
      (stepCell typejs gd st i).map (fun s => s.totals.os_green)
          = Except.ok (st.totals.os_green
              + osDelta gd.cellSize entry.os_type typejs.green)
        ∧ (stepCell typejs gd st i).map (fun s => s.totals.os_sports)
          = Except.ok (st.totals.os_sports
              + osDelta gd.cellSize entry.os_type typejs.sports)
        ∧ (stepCell typejs gd st i).map (fun s => s.totals.os_play)
          = Except.ok (st.totals.os_play
              + osDelta gd.cellSize entry.os_type typejs.playgrounds)
        ∧ (stepCell typejs gd st i).map (fun s => s.totals.bld_living)
          = Except.ok st.totals.bld_living
        ∧ (stepCell typejs gd st i).map (fun s => s.totals.bld_commerce)
          = Except.ok st.totals.bld_commerce
        ∧ (stepCell typejs gd st i).map (fun s => s.totals.bld_special)
          = Except.ok st.totals.bld_special) := by
  constructor
  · intro hb
    have hstep := stepCell_building typejs gd st i cell tidx entry hc hti htm hb
    obtain ⟨g1, g2, g3, g4, g5, g6⟩ :=
      groundUses_totals typejs gd.cellSize entry.bld_useGround
        entry.bld_numLevels st.totals
    obtain ⟨u1, u2, u3, u4, u5, u6⟩ :=
      upperUses_totals typejs gd.cellSize entry.bld_useUpper
        entry.bld_numLevels
        (groundUses typejs gd.cellSize entry.bld_useGround
          entry.bld_numLevels st.totals)
    exact ⟨by simp [hstep, Except.map, u1, g1, add_assoc],
      by simp [hstep, Except.map, u2, g2, add_assoc],
      by simp [hstep, Except.map, u3, g3, add_assoc]⟩
  · intro hs
    have hstep := stepCell_openspace typejs gd st i cell tidx entry hc hti htm hs
    obtain ⟨o1, o2, o3, o4, o5, o6⟩ :=
      openSpaceUses_totals typejs gd.cellSize entry.os_type st.totals
    exact ⟨by simp [hstep, Except.map, o1], by simp [hstep, Except.map, o2],
      by simp [hstep, Except.map, o3], by simp [hstep, Except.map, o4],
      by simp [hstep, Except.map, o5], by simp [hstep, Except.map, o6]⟩

def STos : RunState :=
  { gridData := [some [1]], features := makeFeatureList 1,
    totals := totals0 }

theorem category_matching_nonexclusive_witness :
    (stepCell TDw GDw STos 0).map (fun s => s.totals.os_green)
        = Except.ok (STos.totals.os_green
            + osDelta GDw.cellSize entryOS.os_type TDw.green)
      ∧ (stepCell TDw GDw STos 0).map (fun s => s.totals.os_sports)
        = Except.ok (STos.totals.os_sports
            + osDelta GDw.cellSize entryOS.os_type TDw.sports)
      ∧ (stepCell TDw GDw STos 0).map (fun s => s.totals.os_play)
        = Except.ok (STos.totals.os_play
            + osDelta GDw.cellSize entryOS.os_type TDw.playgrounds)
      ∧ (stepCell TDw GDw STos 0).map (fun s => s.totals.bld_living)
        = Except.ok STos.totals.bld_living
      ∧ (stepCell TDw GDw STos 0).map (fun s => s.totals.bld_commerce)
        = Except.ok STos.totals.bld_commerce
      ∧ (stepCell TDw GDw STos 0).map (fun s => s.totals.bld_special)
        = Except.ok STos.totals.bld_special :=
  (category_matching_nonexclusive TDw GDw STos 0 [1] 1 entryOS
    rfl rfl rfl).2 rfl

/-- Amended claim C7: a null cell is skipped, and a cell whose mapping
entry lacks a "type" field is skipped (it contributes to no total and its
feature properties stay empty); but a cell whose type-index has no entry
in the type mapping is NOT recovered: the lookup raises, aborting the
cycle with an error. -/
theorem cell_skip_semantics (typejs : TypeDefs) (gd : Table)
    (st : RunState) (i : Nat) :
    (st.gridData[i]? = some none → stepCell typejs gd st i = Except.ok st)
    ∧ (∀ cell tidx entry, st.gridData[i]? = some (some cell) →
        cell[gd.typeidx]? = some tidx → gd.mapping[tidx]? = some entry →
        entry.type = none → stepCell typejs gd st i = Except.ok st)
    ∧ (∀ cell, st.gridData[i]? = some (some cell) →
        cell[gd.typeidx]? = none →
        stepCell typejs gd st i = Except.error AggError.cellAttrMissing)
    ∧ (∀ cell tidx, st.gridData[i]? = some (some cell) →
        cell[gd.typeidx]? = some tidx → gd.mapping[tidx]? = none →
        stepCell typejs gd st i
          = Except.error AggError.mappingEntryMissing) := by
  refine ⟨?_, ?_, ?_, ?_⟩
  · intro h
    simp [stepCell, h]
  · intro cell tidx entry hc hti htm ht
    simp [stepCell, hc, hti, htm, ht]
  · intro cell hc hti
    simp [stepCell, hc, hti]
  · intro cell tidx hc hti htm
    simp [stepCell, hc, hti, htm]

theorem cell_skip_semantics_witness :
    STw.gridData[1]? = some none
    ∧ stepCell TDw GDw STw 1 = Except.ok STw :=
  ⟨rfl, (cell_skip_semantics TDw GDw STw 1).1 rfl⟩

/-- Counterexample to claim C7 as stated: a cell whose type-index has no
entry in the type mapping does not get skipped; the mapping lookup fails
and the whole aggregation cycle errors out. -/
def GDe : Table :=
  { cellSize := 10, ncols := 1, nrows := 1, mapping := [], typeidx := 0,
    tablerotation := 0, origin := (0, 0) }

def STe : RunState :=
  { gridData := [some [0]], features := makeFeatureList 1,
    totals := totals0 }

theorem unresolved_mapping_entry_raises :
    stepCell TDw GDe STe 0 = Except.error AggError.mappingEntryMissing
    ∧ runLoop TDw GDe STe = Except.error AggError.mappingEntryMissing :=
  ⟨rfl, rfl⟩

/-- The effect one loop iteration has on the feature list: a building cell
gets its attributes attached at its own index, anything else leaves the
features untouched. -/
def featureEffect (gd : Table) (cell : Option Cell) (features : List Feature)
    (i : Nat) : List Feature :=
  match buildingAttrs gd cell with
  | some p => setProps features i p
  | none => features

/-- The effect of one loop iteration on a single feature. -/
def featAfter (gd : Table) (cell : Option Cell) (f : Feature) : Feature :=
  match buildingAttrs gd cell with
  | some p => { f with properties := some p }
  | none => f

lemma featureEffect_getElem? (gd : Table) (cell : Option Cell)
    (fs : List Feature) (i j : Nat) :
    (featureEffect gd cell fs i)[j]?
      = if j = i then (fs[j]?).map (featAfter gd cell) else fs[j]? := by
  unfold featureEffect featAfter
  cases hba : buildingAttrs gd cell with
  | none =>
    by_cases hj : j = i <;> simp [hj]
  | some p =>
    unfold setProps
    cases hfi : fs[i]? with
    | none =>
      by_cases hj : j = i
      · subst hj
        simp [hfi]
      · simp [hfi, hj]
    | some f0 =>
      have hlen : i < fs.length := by
        rcases List.getElem?_eq_some.mp hfi with ⟨hl, _⟩
        exact hl
      simp only [hfi]
      rw [List.getElem?_set]
      by_cases hj : j = i
      · subst hj
        simp [hlen, hfi]
      · rw [if_neg (Ne.symm hj), if_neg hj]

/-- stepCell never changes the grid array, and its effect on the feature
list is exactly featureEffect at the visited index. -/
lemma stepCell_gridData_features (typejs : TypeDefs) (gd : Table)
    (st : RunState) (i : Nat) (st' : RunState)
    (h : stepCell typejs gd st i = Except.ok st') :
    st'.gridData = st.gridData
    ∧ st'.features = featureEffect gd (st.gridData[i]?.getD none)
        st.features i := by
  unfold stepCell at h
  repeat' split at h
  all_goals
    first
      | exact Except.noConfusion h
      | (simp only [Except.ok.injEq] at h
         subst h
         exact ⟨rfl, by simp_all [featureEffect, buildingAttrs,
           List.getElem?_eq_none]⟩)

/-- The loop invariant: running the aggregation from index i for n steps
leaves the grid unchanged and maps each feature in the window [i, i+n)
through featAfter of its own cell, leaving every other feature alone. -/
lemma runLoopFrom_spec (typejs : TypeDefs) (gd : Table) :
    ∀ (n i : Nat) (st st' : RunState),
    runLoopFrom typejs gd i n st = Except.ok st' →
    st'.gridData = st.gridData
    ∧ ∀ j, st'.features[j]?
        = if i ≤ j ∧ j < i + n
          then (st.features[j]?).map (featAfter gd (st.gridData[j]?.getD none))
          else st.features[j]? := by
  intro n
  induction n with
  | zero =>
    intro i st st' h
    simp only [runLoopFrom] at h
    injection h with h
    subst h
    refine ⟨rfl, ?_⟩
    intro j
    rw [if_neg (by omega)]
  | succ n ih =>
    intro i st st' h
    simp only [runLoopFrom] at h
    cases hs : stepCell typejs gd st i with
    | error e =>
      rw [hs] at h
      exact absurd h (by simp)
    | ok st1 =>
      rw [hs] at h
      dsimp only at h
      obtain ⟨hgrid1, hfeat1⟩ := stepCell_gridData_features typejs gd st i st1 hs
      obtain ⟨hgrid2, hfeat2⟩ := ih (i + 1) st1 st' h
      refine ⟨hgrid2.trans hgrid1, ?_⟩
      intro j
      have hj := hfeat2 j
      rw [hgrid1] at hj
      rw [hj]
      have hj1 : st1.features[j]?
          = if j = i
            then (st.features[j]?).map (featAfter gd (st.gridData[i]?.getD none))
            else st.features[j]? := by
        rw [hfeat1, featureEffect_getElem?]
      by_cases hji : j = i
      · subst hji
        rw [if_neg (by omega), hj1, if_pos rfl, if_pos (by omega)]
      · rw [hj1, if_neg hji]
        by_cases hcond : i + 1 ≤ j ∧ j < i + 1 + n
        · rw [if_pos hcond, if_pos (by omega)]
        · rw [if_neg hcond, if_neg (by omega)]

/-- Claim C9: neither feature construction nor aggregation mutates the
input grid: a successful aggregation pass returns a state whose grid
array is the input grid array, element for element. -/
theorem aggregation_preserves_grid (typejs : TypeDefs) (gd : Table)
    (st st' : RunState) (h : runLoop typejs gd st = Except.ok st') :
    st'.gridData = st.gridData :=
  (runLoopFrom_spec typejs gd st.gridData.length 0 st st' h).1

def propsW : BldProps :=
  { bld_useGround := some "res", bld_useUpper := some "com",
    bld_numLevels := 3 }

def totalsW : Totals :=
  { bld_living := 100, bld_commerce := 200, bld_special := 0,
    os_green := 0, os_sports := 0, os_play := 0 }

/-- The state after one full aggregation cycle on STw. -/
def STw' : RunState :=
  { gridData := [some [0], none],
    features := [{ id := 0, properties := some propsW },
                 { id := 1, properties := none }],
    totals := totalsW }

theorem aggregation_preserves_grid_witness :
    runLoop TDw GDw STw = Except.ok STw'
    ∧ STw'.gridData = STw.gridData :=
  ⟨rfl, aggregation_preserves_grid TDw GDw STw STw' rfl⟩

/-- The feature the pipeline should leave at index i: id i, with building
attributes exactly when cell i resolves to a building. -/
def expectedFeature (gd : Table) (grid : List (Option Cell)) (i : Nat) :
    Feature :=
  { id := i, properties := buildingAttrs gd (grid[i]?.getD none) }

/-- Claim C6: before filtering there is one feature per grid index with id
equal to that index; after a successful aggregation pass, the feature at
index i carries the building attributes of cell i when that cell resolves
to a building and empty properties otherwise (ids untouched); the
post-pass filter removes exactly the features with empty properties, and
every survivor still sits at (and carries) its original source index. -/
theorem features_pipeline (typejs : TypeDefs) (gd : Table)
    (grid : List (Option Cell)) (st' : RunState)
    (h : runLoop typejs gd
        { gridData := grid, features := makeFeatureList grid.length,
          totals := totals0 } = Except.ok st') :
    (∀ i, i < grid.length →
        (makeFeatureList grid.length)[i]?
          = some { id := i, properties := none })
    ∧ st'.features = (List.range grid.length).map (expectedFeature gd grid)
    ∧ (∀ f, f ∈ remove_empty_cells_from_geojson st'.features
        ↔ f ∈ st'.features ∧ f.properties ≠ none)
    ∧ (∀ f, f ∈ remove_empty_cells_from_geojson st'.features →
        f.id < grid.length ∧ st'.features[f.id]? = some f) := by
  obtain ⟨hgrid, hfeat⟩ :=
    runLoopFrom_spec typejs gd grid.length 0
      { gridData := grid, features := makeFeatureList grid.length,
        totals := totals0 } st' h
  have hmk : ∀ i, i < grid.length →
      (makeFeatureList grid.length)[i]?
        = some { id := i, properties := none } := by
    intro i hi
    simp [makeFeatureList, List.getElem?_map, List.getElem?_range hi]
  have hfeats : st'.features
      = (List.range grid.length).map (expectedFeature gd grid) := by
    apply List.ext_getElem?
    intro j
    have hj := hfeat j
    dsimp only at hj
    by_cases hjn : j < grid.length
    · rw [hj, if_pos (by omega), hmk j hjn, List.getElem?_map,
        List.getElem?_range hjn]
      cases hba : buildingAttrs gd (grid[j]?.getD none) <;>
        simp [featAfter, expectedFeature, hba]
    · rw [hj, if_neg (by omega)]
      have h1 : (makeFeatureList grid.length).length ≤ j := by
        simp [makeFeatureList]
        omega
      have h2 : ((List.range grid.length).map
          (expectedFeature gd grid)).length ≤ j := by
        simp
        omega
      rw [List.getElem?_eq_none h1, List.getElem?_eq_none h2]
  refine ⟨hmk, hfeats, ?_, ?_⟩
  · intro f
    simp [remove_empty_cells_from_geojson, List.mem_filter]
  · intro f hf
    have hmem0 := List.mem_filter.mp hf
    have hmem : f ∈ st'.features := hmem0.1
    rw [hfeats] at hmem
    obtain ⟨j, hjmem, hgj⟩ := List.mem_map.mp hmem
    have hjn : j < grid.length := List.mem_range.mp hjmem
    have hid : f.id = j := by
      rw [← hgj]
      rfl
    constructor
    · rw [hid]
      exact hjn
    · rw [hfeats, hid, List.getElem?_map, List.getElem?_range hjn]
      simp [hgj]

theorem features_pipeline_witness :
    STw'.features
      = (List.range ([some [0], none] : List (Option Cell)).length).map
          (expectedFeature GDw [some [0], none]) :=
  (features_pipeline TDw GDw [some [0], none] STw' rfl).2.1

/-- The abstract error for a malformed header: in the source a missing key
raises KeyError (or ValueError for block.index), uncaught, aborting the
cycle before any aggregation. -/
inductive MalformedHeaderError where
  | missingField (field : String)
deriving DecidableEq, Repr

/-- Reading a required field: present gives the value, absent raises. -/
def require {α : Type} (field : String) :
    Option α → Except MalformedHeaderError α
  | some a => Except.ok a
  | none => Except.error (MalformedHeaderError.missingField field)

/-- Python list.index: position of the first occurrence, error if absent
(modelled as none). -/
def listIndex (a : String) : List String → Option Nat
  | [] => none
  | b :: bs => if b = a then some 0 else (listIndex a bs).map (fun n => n + 1)

/-- The header payload as consumed by Table.fromCityIO: every field the
source reads, each possibly absent.  Numeric values are embedded as
integers. -/
structure Header where
  cellSize : Option Int
  ncols : Option Nat
  nrows : Option Nat
  rotation : Option Int
  latitude : Option Int
  longitude : Option Int
  mappingType : Option (List TypeRecord)
  block : Option (List String)
deriving DecidableEq

/-- Constructor shorthand for the table record. -/
def mkTable (cs : Int) (nc nr : Nat) (mp : List TypeRecord) (tidx : Nat)
    (rot : Real) (o : Real × Real) : Table :=
  { cellSize := cs, ncols := nc, nrows := nr, mapping := mp,
    typeidx := tidx, tablerotation := rot, origin := o }

/-- Table.fromCityIO (main.py lines 432-444), with the input-CRS ->
compute-CRS reprojection passed in as a black-box function: reads
cellSize, ncols, nrows, mapping.type, block.index("type"), rotation in
the source's order, then computes the origin by reprojecting
(latitude, longitude). -/
noncomputable def fromCityIOTable (proj : Real × Real → Real × Real)
    (data : Header) : Except MalformedHeaderError Table := do
  let cs ← require "spatial.cellSize" data.cellSize
  let nc ← require "spatial.ncols" data.ncols
  let nr ← require "spatial.nrows" data.nrows
  let mp ← require "mapping.type" data.mappingType
  let blk ← require "block" data.block
  let tidx ← require "block has no type entry" (listIndex "type" blk)
  let rot ← require "spatial.rotation" data.rotation
  let lat ← require "spatial.latitude" data.latitude
  let lon ← require "spatial.longitude" data.longitude
  Except.ok (mkTable cs nc nr mp tidx (rot : Real)
    (proj ((lat : Real), (lon : Real))))

lemma listIndex_mem (a : String) (l : List String) (n : Nat)
    (h : listIndex a l = some n) : a ∈ l := by
  induction l generalizing n with
  | nil => simp [listIndex] at h
  | cons b bs ih =>
    by_cases hb : b = a
    · simp [hb]
    · simp only [listIndex, if_neg hb] at h
      cases hlb : listIndex a bs with
      | none => simp [hlb] at h
      | some m => exact List.mem_cons_of_mem _ (ih m hlb)

lemma listIndex_of_mem (a : String) (l : List String) (h : a ∈ l) :
    ∃ n, listIndex a l = some n := by
  induction l with
  | nil => simp at h
  | cons b bs ih =>
    by_cases hb : b = a
    · exact ⟨0, by simp [listIndex, hb]⟩
    · have hbs : a ∈ bs := by
        rcases List.mem_cons.mp h with h1 | h1
        · exact absurd h1.symm hb
        · exact h1
      rcases ih hbs with ⟨n, hn⟩
      exact ⟨n + 1, by simp [listIndex, hb, hn]⟩

/-- Amended claim C8: building the table from a header fails with a
malformed-header error (before any aggregation) whenever any field the
source reads is absent: spatial.cellSize, spatial.ncols, spatial.nrows,
mapping.type, a block list containing a "type" entry, spatial.rotation,
spatial.latitude or spatial.longitude; when all of these are present it
returns the table with those values and an origin computed by
reprojecting (latitude, longitude) with the input-to-compute transform. -/
theorem header_required_fields (proj : Real × Real → Real × Real)
    (data : Header) :
    ((∃ t, fromCityIOTable proj data = Except.ok t) ↔
      (data.cellSize.isSome ∧ data.ncols.isSome ∧ data.nrows.isSome
        ∧ data.mappingType.isSome
        ∧ (∃ blk, data.block = some blk ∧ "type" ∈ blk)
        ∧ data.rotation.isSome ∧ data.latitude.isSome
        ∧ data.longitude.isSome))
    ∧ ∀ cs nc nr mp blk tidx rot lat lon,
        data.cellSize = some cs → data.ncols = some nc →
        data.nrows = some nr → data.mappingType = some mp →
        data.block = some blk → listIndex "type" blk = some tidx →
        data.rotation = some rot → data.latitude = some lat →
        data.longitude = some lon →
        fromCityIOTable proj data = Except.ok
          (mkTable cs nc nr mp tidx (rot : Real)
            (proj ((lat : Real), (lon : Real)))) := by
  have hok : ∀ cs nc nr mp blk tidx rot lat lon,
      data.cellSize = some cs → data.ncols = some nc →
      data.nrows = some nr → data.mappingType = some mp →
      data.block = some blk → listIndex "type" blk = some tidx →
      data.rotation = some rot → data.latitude = some lat →
      data.longitude = some lon →
      fromCityIOTable proj data = Except.ok
        (mkTable cs nc nr mp tidx (rot : Real)
          (proj ((lat : Real), (lon : Real)))) := by
    intro cs nc nr mp blk tidx rot lat lon h1 h2 h3 h4 h5 h6 h7 h8 h9
    simp [fromCityIOTable, require, Bind.bind, Except.bind,
      h1, h2, h3, h4, h5, h6, h7, h8, h9]
  refine ⟨⟨?_, ?_⟩, hok⟩
  · rintro ⟨t, ht⟩
    cases h1 : data.cellSize with
    | none => simp [fromCityIOTable, require, Bind.bind, Except.bind, h1] at ht
    | some cs =>
    cases h2 : data.ncols with
    | none => simp [fromCityIOTable, require, Bind.bind, Except.bind, h1, h2] at ht
    | some nc =>
    cases h3 : data.nrows with
    | none => simp [fromCityIOTable, require, Bind.bind, Except.bind, h1, h2, h3] at ht
    | some nr =>
    cases h4 : data.mappingType with
    | none => simp [fromCityIOTable, require, Bind.bind, Except.bind, h1, h2, h3, h4] at ht
    | some mp =>
    cases h5 : data.block with
    | none => simp [fromCityIOTable, require, Bind.bind, Except.bind, h1, h2, h3, h4, h5] at ht
    | some blk =>
    cases h6 : listIndex "type" blk with
    | none => simp [fromCityIOTable, require, Bind.bind, Except.bind, h1, h2, h3, h4, h5, h6] at ht
    | some tidx =>
    cases h7 : data.rotation with
    | none => simp [fromCityIOTable, require, Bind.bind, Except.bind, h1, h2, h3, h4, h5, h6, h7] at ht
    | some rot =>
    cases h8 : data.latitude with
    | none =>
      simp [fromCityIOTable, require, Bind.bind, Except.bind, h1, h2, h3, h4, h5, h6, h7, h8] at ht
    | some lat =>
    cases h9 : data.longitude with
    | none =>
      simp [fromCityIOTable, require, Bind.bind, Except.bind, h1, h2, h3, h4, h5, h6, h7, h8, h9] at ht
    | some lon =>
      exact ⟨by simp, by simp, by simp, by simp,
        ⟨blk, rfl, listIndex_mem _ _ _ h6⟩, by simp, by simp, by simp⟩
  · rintro ⟨hc, hn, hr, hm, ⟨blk, hblk, hmem⟩, hrot, hlat, hlon⟩
    rcases Option.isSome_iff_exists.mp hc with ⟨cs, h1⟩
    rcases Option.isSome_iff_exists.mp hn with ⟨nc, h2⟩
    rcases Option.isSome_iff_exists.mp hr with ⟨nr, h3⟩
    rcases Option.isSome_iff_exists.mp hm with ⟨mp, h4⟩
    rcases listIndex_of_mem _ _ hmem with ⟨tidx, h6⟩
    rcases Option.isSome_iff_exists.mp hrot with ⟨rot, h7⟩
    rcases Option.isSome_iff_exists.mp hlat with ⟨lat, h8⟩
    rcases Option.isSome_iff_exists.mp hlon with ⟨lon, h9⟩
    exact ⟨_, hok cs nc nr mp blk tidx rot lat lon
      h1 h2 h3 h4 hblk h6 h7 h8 h9⟩

/-- A header carrying every field the claim lists as required, but no
spatial.rotation. -/
def Hc : Header :=
  { cellSize := some 10, ncols := some 2, nrows := some 1,
    rotation := none, latitude := some 53, longitude := some 10,
    mappingType := some [entryW], block := some ["type"] }

/-- Counterexample to claim C8 as stated: all five fields the claim calls
required are present, yet fromCityIO does not return a table; it fails on
the (unlisted) spatial.rotation read. -/
theorem header_missing_rotation_fails :
    Hc.cellSize.isSome = true
    ∧ Hc.ncols.isSome = true
    ∧ Hc.nrows.isSome = true
    ∧ Hc.mappingType.isSome = true
    ∧ Hc.block = some ["type"] ∧ "type" ∈ ["type"]
    ∧ fromCityIOTable (fun p => p) Hc
        = Except.error (MalformedHeaderError.missingField
            "spatial.rotation") := by
  refine ⟨rfl, rfl, rfl, rfl, rfl, ?_, rfl⟩
  decide

/-- A complete header. -/
def Hw : Header :=
  { cellSize := some 10, ncols := some 2, nrows := some 1,
    rotation := some 0, latitude := some 53, longitude := some 10,
    mappingType := some [entryW], block := some ["type"] }

theorem header_required_fields_witness :
    fromCityIOTable (fun p => p) Hw = Except.ok
      (mkTable 10 2 1 [entryW] 0 ((0 : Int) : Real)
        ((fun p => p) (((53 : Int) : Real), ((10 : Int) : Real)))) :=
  (header_required_fields (fun p => p) Hw).2 10 2 1 [entryW] ["type"] 0 0 53 10
    rfl rfl rfl rfl rfl rfl rfl rfl rfl

/-- One serialized coordinate pair "["+str(p[1])+","+str(p[0])+"]"
(main.py line 648): the two coordinates are emitted swapped, so they
appear in [longitude, latitude] order.  Python str on numbers is the
black-box render parameter. -/
def coordJSON (render : Real → String) (p : Real × Real) : String :=
  "[" ++ render p.2 ++ "," ++ render p.1 ++ "]"

/-- PolyToGeoJSON (main.py lines 641-661): feature head with the id, the
coordinate ring (each point with a trailing comma, then the first point
repeated without one), then the properties object with trailing-comma
trim.  points[0] on an empty list would raise in Python; headI's default
is never reached in the pipeline, where every ring has 4 corners. -/
def PolyToGeoJSON (render : Real → String) (points : List (Real × Real))
    (id : Nat) (properties : List (String × String)) : String :=
  let ret := "\x7b\"type\": \"Feature\",\"id\": \"" ++ toString id
    ++ "\",\"geometry\": \x7b\"type\": \"Polygon\",\"coordinates\": [["
  let ret := points.foldl (fun r p => r ++ coordJSON render p ++ ",") ret
  let ret := ret ++ coordJSON render points.headI
  let ret := ret ++ "]]\x7d," ++ "\"properties\": \x7b"
  let ret := properties.foldl
    (fun r kv => r ++ "\"" ++ kv.1 ++ "\"" ++ ":" ++ kv.2 ++ ",") ret
  let ret := if properties.length > 0 then ret.dropRight 1 else ret
  ret ++ "\x7d\x7d"

/-- The 4 reprojected corner points built for cell idx
(main.py lines 612-632): (x,y), (x+1,y), (x+1,y+1), (x,y+1) through
Local2Geo and then the compute-to-output CRS transform proj. -/
noncomputable def cellCorners (cityio : Table)
    (proj : Real × Real → Real × Real) (idx : Nat) : List (Real × Real) :=
  let x := idx % cityio.ncols
  let y := idx / cityio.ncols
  [proj (Local2Geo cityio x y),
   proj (Local2Geo cityio (x + 1) y),
   proj (Local2Geo cityio (x + 1) (y + 1)),
   proj (Local2Geo cityio x (y + 1))]

/-- appendPolyFeatures (main.py lines 607-638): one feature per grid
index (with empty properties), each followed by a comma, and the trailing
comma trimmed at the end. -/
noncomputable def appendPolyFeatures (render : Real → String)
    (proj : Real × Real → Real × Real) (gridData : List (Option Cell))
    (cityio : Table) : String :=
  let filledGrid := gridData
  let resultjson := (List.range filledGrid.length).foldl
    (fun r idx =>
      r ++ PolyToGeoJSON render (cellCorners cityio proj idx) idx [] ++ ",")
    ""
  resultjson.dropRight 1

/-- makeGeoJSON (main.py lines 598-605): FeatureCollection front matter,
the features, end matter. -/
noncomputable def makeGeoJSON (render : Real → String)
    (proj : Real × Real → Real × Real) (gridData : List (Option Cell))
    (cityio : Table) : String :=
  let resultjson := "\x7b\"type\": \"FeatureCollection\",\"features\": ["
  let resultjson := resultjson ++ appendPolyFeatures render proj gridData cityio
  resultjson ++ "]\x7d"

/-- Spec-side: the closed ring as a point list, first point repeated
last, every point with its coordinates swapped into [lon, lat] order. -/
def closedRingLonLat (points : List (Real × Real)) : List (Real × Real) :=
  (points ++ [points.headI]).map Prod.swap

/-- Spec-side: a coordinate pair serialized in the order given. -/
def coordPlain (render : Real → String) (q : Real × Real) : String :=
  "[" ++ render q.1 ++ "," ++ render q.2 ++ "]"

/-- Comma-separated concatenation. -/
def commaSeparated : List String → String
  | [] => ""
  | [s] => s
  | s :: rest => s ++ "," ++ commaSeparated rest

lemma foldl_append_commaSeparated :
    ∀ (l : List String) (acc last : String),
    l.foldl (fun r s => r ++ s ++ ",") acc ++ last
      = acc ++ commaSeparated (l ++ [last]) := by
  intro l
  induction l with
  | nil =>
    intro acc last
    simp [commaSeparated]
  | cons s tl ih =>
    intro acc last
    have hcons : commaSeparated (s :: (tl ++ [last]))
        = s ++ "," ++ commaSeparated (tl ++ [last]) := by
      cases tl <;> simp [commaSeparated]
    simp only [List.cons_append, List.foldl_cons, hcons]
    rw [ih (acc ++ s ++ ",") last]
    simp [String.append_assoc]

/-- Claim C5: the polygon feature for index i is built from the 4 corners
(x,y), (x+1,y), (x+1,y+1), (x,y+1) with x = i % ncols, y = i / ncols,
mapped through Local2Geo and the compute-to-output transform; the ring is
serialized closed (first point repeated last, 5 emitted points) with each
point's coordinates swapped into [lon, lat] order; and for index 0 with
rotation 0, cellSize 10, origin (0,0) the corners before reprojection are
(0,0), (10,0), (10,-10), (0,-10). -/
theorem polygon_feature_structure :
    (∀ (render : Real → String) (points : List (Real × Real)) (id : Nat),
      PolyToGeoJSON render points id []
        = "\x7b\"type\": \"Feature\",\"id\": \"" ++ toString id
          ++ "\",\"geometry\": \x7b\"type\": \"Polygon\",\"coordinates\": [["
          ++ commaSeparated ((closedRingLonLat points).map (coordPlain render))
          ++ "]]\x7d," ++ "\"properties\": \x7b" ++ "\x7d\x7d")
    ∧ (∀ points : List (Real × Real),
        (closedRingLonLat points).length = points.length + 1)
    ∧ (∀ (t : Table) (proj : Real × Real → Real × Real) (idx : Nat),
        cellCorners t proj idx
          = [proj (Local2Geo t ((idx % t.ncols : Nat) : Real)
               ((idx / t.ncols : Nat) : Real)),
             proj (Local2Geo t (((idx % t.ncols : Nat) : Real) + 1)
               ((idx / t.ncols : Nat) : Real)),
             proj (Local2Geo t (((idx % t.ncols : Nat) : Real) + 1)
               (((idx / t.ncols : Nat) : Real) + 1)),
             proj (Local2Geo t ((idx % t.ncols : Nat) : Real)
               (((idx / t.ncols : Nat) : Real) + 1))])
    ∧ cellCorners T0 (fun p => p) 0 = [(0, 0), (10, 0), (10, -10), (0, -10)] := by
  refine ⟨?_, ?_, ?_, ?_⟩
  · intro render points id
    unfold PolyToGeoJSON closedRingLonLat
    simp only [List.foldl_nil, List.length_nil, gt_iff_lt, lt_irrefl,
      if_false]
    have hmap : ∀ q : Real × Real, coordPlain render (Prod.swap q)
        = coordJSON render q := by
      intro q
      rfl
    rw [List.map_map]
    have : ((points ++ [points.headI]).map (coordPlain render ∘ Prod.swap))
        = (points ++ [points.headI]).map (coordJSON render) := by
      apply List.map_congr_left
      intro a _
      exact hmap a
    rw [this, List.map_append]
    have hfold := foldl_append_commaSeparated (points.map (coordJSON render))
      ("\x7b\"type\": \"Feature\",\"id\": \"" ++ toString id
        ++ "\",\"geometry\": \x7b\"type\": \"Polygon\",\"coordinates\": [[")
      (coordJSON render points.headI)
    rw [List.foldl_map] at hfold
    simp only [List.map_cons, List.map_nil] at hfold ⊢
    rw [hfold]
  · intro points
    simp [closedRingLonLat]
  · intro t proj idx
    rfl
  · norm_num [cellCorners, Local2Geo, T0, radians, Real.cos_zero,
      Real.sin_zero]

/-- Claim C10: on the empty grid the feature string is empty (the
trailing-comma trim on an empty accumulator is a no-op) and makeGeoJSON
is the FeatureCollection with an empty features list. -/
theorem empty_grid_geojson (render : Real → String)
    (proj : Real × Real → Real × Real) (cityio : Table) :
    appendPolyFeatures render proj [] cityio = ""
    ∧ makeGeoJSON render proj [] cityio
        = "\x7b\"type\": \"FeatureCollection\",\"features\": []\x7d" :=
  ⟨rfl, rfl⟩

end PyGraKPI
